import Mathlib

/-!
# DefendX — verification of the scan client and risk aggregation

Shallow embedding of the DefendX frontend (React/TypeScript) together with
spec-modelled definitions for the backend scan engine, whose implementation
is not part of the frontend sources.  The embedding covers:

* the type declarations of `types.ts` (`ScanSummary`, `DashboardStats`, …);
* `handleScan` and the scan-mode selection state of `ScanInputPage`;
* `getSeverityColor` / `getRiskScoreColor` and the zero-findings branch of
  `ScanResultsPage`;
* the health-score display fallback and the severity-distribution
  percentages of `DashboardPage`;
* spec-modelled `summarize`, `healthScore` and `submitScan` for the backend
  Risk Aggregator and Scan Orchestrator.

JavaScript string and truthiness semantics are embedded explicitly
(`jsStartsWith`, `jsToUpperCase`, `jsOrNum`, `jsOrStr`) so that the Lean
definitions follow the TypeScript source line by line.
-/

namespace DefendX

/-- JavaScript `s.startsWith(p)`: `p` is a prefix of `s`, as a check on the
character sequences of the two strings. -/
def jsStartsWith (s p : String) : Bool := p.data.isPrefixOf s.data

/-- JavaScript `s.toUpperCase()` restricted to ASCII, which is all the
severity and risk-score identifiers use: uppercase every character. -/
def jsToUpperCase (s : String) : String := ⟨s.data.map Char.toUpper⟩

/-- JavaScript `x || y` on an optional numeric field access `a?.f`:
`undefined` and `0` are falsy and select the fallback `y`. -/
def jsOrNum (x : Option Int) (y : Int) : Int :=
  match x with
  | some v => if v = 0 then y else v
  | none => y

/-- JavaScript `x || y` on an optional string field access `a?.f`:
`undefined` and the empty string are falsy and select the fallback `y`. -/
def jsOrStr (x : Option String) (y : String) : String :=
  match x with
  | some s => if s = "" then y else s
  | none => y

/-! ## Data model (`types.ts`) -/

/-- `severity: 'HIGH' | 'MEDIUM' | 'LOW'` from the `Vulnerability`
interface. -/
inductive Severity
  | HIGH
  | MEDIUM
  | LOW
deriving DecidableEq, Repr

/-- `risk_score: 'HIGH' | 'MEDIUM' | 'LOW' | 'CLEAN' | 'UNKNOWN'` from the
`ScanSummary` interface. -/
inductive RiskScore
  | HIGH
  | MEDIUM
  | LOW
  | CLEAN
  | UNKNOWN
deriving DecidableEq, Repr

/-- The `Vulnerability` interface (evidence bag elided to its URL anchor,
which is the only part the claims touch). -/
structure Vulnerability where
  category : String
  severity : Severity
  title : String
  description : String
  remediation : String
  references : List String
deriving DecidableEq, Repr

/-- The `by_severity` record of `ScanSummary` and the
`severity_distribution` record of `DashboardStats`. -/
structure SeverityCounts where
  HIGH : Nat
  MEDIUM : Nat
  LOW : Nat
deriving DecidableEq, Repr

/-- The `ScanSummary` interface. -/
structure ScanSummary where
  total_vulnerabilities : Nat
  by_severity : SeverityCounts
  by_category : List (String × Nat)
  risk_score : RiskScore
deriving DecidableEq, Repr

/-- The backend `health_score` payload as read by `DashboardPage`
(`health_score`, `letter_grade`, `grade_color`, `status`, `risk_points`). -/
structure HealthScorePayload where
  health_score : Int
  letter_grade : String
  grade_color : String
  status : String
  risk_points : Int
deriving DecidableEq, Repr

/-- The `DashboardStats` interface, with the optional `health_score` object
`DashboardPage` reads through `data.stats.health_score?.…`. -/
structure DashboardStats where
  total_scans : Nat
  active_targets : Nat
  critical_risks : Nat
  severity_distribution : SeverityCounts
  health_score : Option HealthScorePayload
deriving DecidableEq, Repr

/-! ## `ScanInputPage` (scan submission client) -/

/-- The JSON body `handleScan` posts to the scan API:
`{ url: targetUrl, authorized: isAuthorized, mode: scanMode }`. -/
structure ScanPostRequest where
  url : String
  authorized : Bool
  mode : String
deriving DecidableEq, Repr

/-- Outcome of one `handleScan` invocation: the error message it set (if
any) and the request it posted to `/api/scan` (if any). -/
structure HandleScanResult where
  error : Option String
  request : Option ScanPostRequest
deriving DecidableEq, Repr

/-- `handleScan` from `ScanInputPage`, up to the network boundary: validate
the URL presence and the authorization checkbox, normalize the URL by
prepending `https://` when it does not start with `http`, then post
`{url, authorized, mode}`.  The response handling after the post is I/O and
outside the model. -/
def handleScan (url : String) (isAuthorized : Bool) (scanMode : String) :
    HandleScanResult :=
  if url = "" then
    { error := some "Please enter a target URL", request := none }
  else if !isAuthorized then
    { error := some "Authorization required", request := none }
  else
    let targetUrl := if jsStartsWith url "http" then url else "https://" ++ url
    { error := none,
      request := some { url := targetUrl, authorized := isAuthorized, mode := scanMode } }

/-- The URL normalization step of `handleScan` in isolation:
`if (!targetUrl.startsWith('http')) targetUrl = "https://" + targetUrl`. -/
def normalizeTargetUrl (url : String) : String :=
  if jsStartsWith url "http" then url else "https://" ++ url

/-- The three scan-mode cards of `ScanInputPage`, by their `id` fields:
`discovery`, `standard`, `deep`. -/
def scanModes : List String := ["discovery", "standard", "deep"]

/-- The React state of `ScanInputPage`:
`url`, `isAuthorized`, `isScanning`, `error`, `scanMode`. -/
structure ScanInputState where
  url : String
  isAuthorized : Bool
  isScanning : Bool
  error : Option String
  scanMode : String
deriving DecidableEq, Repr

/-- The initial `useState` values of `ScanInputPage`: empty URL,
unauthorized, not scanning, no error, mode `standard`. -/
def initialScanInputState : ScanInputState :=
  { url := "", isAuthorized := false, isScanning := false,
    error := none, scanMode := "standard" }

/-- The user interactions of `ScanInputPage` that update its state: typing
in the URL input, toggling the authorization checkbox, and clicking one of
the three mode cards (`setScanMode(mode.id)` over the literal card list). -/
inductive ScanInputEvent
  | setUrl (s : String)
  | setAuthorized (b : Bool)
  | selectMode (i : Fin 3)
deriving DecidableEq

/-- The state transition of `ScanInputPage` for one interaction.  The URL
input, the checkbox and the mode cards are all `disabled={isScanning}`, so
events are ignored while a scan is in flight. -/
def scanInputStep (s : ScanInputState) (e : ScanInputEvent) : ScanInputState :=
  if s.isScanning then s
  else
    match e with
    | .setUrl u => { s with url := u }
    | .setAuthorized b => { s with isAuthorized := b }
    | .selectMode i => { s with scanMode := scanModes.get ⟨i, by simp [scanModes]⟩ }

/-- The states `ScanInputPage` can reach from its initial state by user
interactions. -/
inductive ReachableScanInput : ScanInputState → Prop
  | init : ReachableScanInput initialScanInputState
  | step {s : ScanInputState} (e : ScanInputEvent) :
      ReachableScanInput s → ReachableScanInput (scanInputStep s e)

/-! ## `ScanResultsPage` -/

namespace ScanResultsPage

/-- `getSeverityColor` from `ScanResultsPage`: switch on
`severity.toUpperCase()` with a default style for anything else. -/
def getSeverityColor (severity : String) : String :=
  let u := jsToUpperCase severity
  if u = "HIGH" then "text-red-700 bg-red-50 border-red-100"
  else if u = "MEDIUM" then "text-yellow-700 bg-yellow-50 border-yellow-100"
  else if u = "LOW" then "text-blue-700 bg-blue-50 border-blue-100"
  else "text-slate-600 bg-slate-50 border-slate-200"

/-- `getRiskScoreColor` from `ScanResultsPage`: switch on
`score.toUpperCase()` with a default gradient for anything else. -/
def getRiskScoreColor (score : String) : String :=
  let u := jsToUpperCase score
  if u = "HIGH" then "from-red-500 to-red-600 shadow-red-200"
  else if u = "MEDIUM" then "from-yellow-400 to-orange-500 shadow-orange-200"
  else if u = "LOW" then "from-green-500 to-emerald-600 shadow-green-200"
  else "from-slate-400 to-slate-500"

/-- Which branch the Detailed Findings section renders:
`vulnerabilities.length === 0` shows the Target Secure card, otherwise one
row per vulnerability. -/
inductive FindingsView
  | targetSecure
  | findingRows (count : Nat)
deriving DecidableEq, Repr

/-- The Detailed Findings branch of `ScanResultsPage` as a function of the
vulnerability list. -/
def findingsSection (vulnerabilities : List Vulnerability) : FindingsView :=
  if vulnerabilities.length = 0 then .targetSecure
  else .findingRows vulnerabilities.length

end ScanResultsPage

/-! ## `DashboardPage` -/

namespace DashboardPage

/-- `getSeverityColor` from `DashboardPage` (dark-theme styles), same
switch on `severity.toUpperCase()`. -/
def getSeverityColor (severity : String) : String :=
  let u := jsToUpperCase severity
  if u = "HIGH" then "text-red-400 bg-red-500/10 border-red-500/20"
  else if u = "MEDIUM" then "text-yellow-400 bg-yellow-500/10 border-yellow-500/20"
  else if u = "LOW" then "text-blue-400 bg-blue-500/10 border-blue-500/20"
  else "text-zinc-400 bg-zinc-500/10 border-zinc-500/20"

/-- The numeric health score `DashboardHome` displays:
`data.stats.health_score?.health_score || Math.max(0, 100 - critical_risks * 5)`. -/
def displayedHealthScore (stats : DashboardStats) : Int :=
  jsOrNum (stats.health_score.map (·.health_score))
    (max 0 (100 - (stats.critical_risks : Int) * 5))

/-- The letter grade `DashboardHome` displays:
`data.stats.health_score?.letter_grade || 'A'`. -/
def displayedLetterGrade (stats : DashboardStats) : String :=
  jsOrStr (stats.health_score.map (·.letter_grade)) "A"

/-- `totalRisks` in `DashboardHome`: the sum of the severity-distribution
counts. -/
def totalRisks (d : SeverityCounts) : Nat := d.HIGH + d.MEDIUM + d.LOW

/-- `highPct` in `DashboardHome`:
`totalRisks ? (HIGH / totalRisks) * 100 : 0` (0 is falsy, guarding the
division). -/
def highPct (d : SeverityCounts) : ℚ :=
  if totalRisks d = 0 then 0 else ((d.HIGH : ℚ) / (totalRisks d : ℚ)) * 100

/-- `medPct` in `DashboardHome`:
`totalRisks ? (MEDIUM / totalRisks) * 100 : 0`. -/
def medPct (d : SeverityCounts) : ℚ :=
  if totalRisks d = 0 then 0 else ((d.MEDIUM : ℚ) / (totalRisks d : ℚ)) * 100

end DashboardPage

/-! ## Spec-modelled backend (Risk Aggregator, Scan Orchestrator)

The scan engine itself is a backend service whose implementation is not in
the frontend sources; only its TypeScript result types and its HTTP callers
are.  The definitions below are modelled from the spec. -/

/-- Number of findings of a given severity in a finding list. -/
def countSeverity (findings : List Vulnerability) (sev : Severity) : Nat :=
  (findings.filter (fun f => f.severity = sev)).length

/-- One step of the category fold: bump the count of a category,
registering it on first sight. -/
def bumpCategory : List (String × Nat) → String → List (String × Nat)
  | [], c => [(c, 1)]
  | (k, n) :: rest, c =>
      if k = c then (k, n + 1) :: rest else (k, n) :: bumpCategory rest c

/-- The `by_category` counts as a fold over the findings. -/
def byCategory (findings : List Vulnerability) : List (String × Nat) :=
  findings.foldl (fun acc f => bumpCategory acc f.category) []

/-- Modelled from the spec: the Risk Aggregator's risk tier precedence
(§4.4), not in the frontend sources — any HIGH finding gives tier HIGH,
else any MEDIUM gives MEDIUM, else any LOW gives LOW; with no findings the
tier is UNKNOWN after a snapshot build failure and CLEAN otherwise. -/
def riskScoreOf (snapshotFailed : Bool) (findings : List Vulnerability) :
    RiskScore :=
  if 0 < countSeverity findings .HIGH then .HIGH
  else if 0 < countSeverity findings .MEDIUM then .MEDIUM
  else if 0 < countSeverity findings .LOW then .LOW
  else if snapshotFailed then .UNKNOWN
  else .CLEAN

/-- Modelled from the spec: `summarize(findings) -> ScanSummary` (§4.4),
not in the frontend sources — deterministic severity/category counts over
the findings plus the precedence risk tier. -/
def summarize (snapshotFailed : Bool) (findings : List Vulnerability) :
    ScanSummary :=
  { total_vulnerabilities := findings.length,
    by_severity :=
      { HIGH := countSeverity findings .HIGH,
        MEDIUM := countSeverity findings .MEDIUM,
        LOW := countSeverity findings .LOW },
    by_category := byCategory findings,
    risk_score := riskScoreOf snapshotFailed findings }

/-- Modelled from the spec: the backend HealthScore record (§3) — numeric
score, letter grade and risk-point total (the status label is left out; the
spec fixes no ladder for it and no claim touches it). -/
structure HealthScore where
  health_score : Int
  letter_grade : String
  risk_points : Nat
deriving DecidableEq, Repr

/-- Modelled from the spec: the letter-grade threshold ladder over the
numeric score (§4.4) — A at 90 and above, B at 75, C at 60, else the
F-band. -/
def letterGradeOf (score : Int) : String :=
  if 90 ≤ score then "A"
  else if 75 ≤ score then "B"
  else if 60 ≤ score then "C"
  else "F"

/-- Modelled from the spec: `healthScore` from an accumulated risk-point
total (§4.4) — the numeric score is `max(0, 100 - riskPoints)` and the
letter grade is the threshold ladder over it. -/
def healthScoreFromPoints (riskPoints : Nat) : HealthScore :=
  let score : Int := max 0 (100 - (riskPoints : Int))
  { health_score := score,
    letter_grade := letterGradeOf score,
    risk_points := riskPoints }

/-- The §7 error taxonomy entry for pre-flight rejection: a `ValidationError`
covers both a bad URL/scheme and a false authorization flag. -/
inductive ValidationError
  | authorizationRequired
  | badUrl
deriving DecidableEq, Repr

/-- The ScanJob lifecycle states of §3. -/
inductive JobState
  | queued
  | running
  | completed
  | failed
  | timed_out
deriving DecidableEq, Repr

/-- Modelled from the spec: the ScanJob wrapper created by the
Orchestrator for an accepted request (§3). -/
structure ScanJob where
  url : String
  mode : String
  state : JobState
deriving DecidableEq, Repr

/-- A parsed target URL as the spec-modelled validator sees it: a scheme
and the rest; a malformed URL is `none` at the call site. -/
structure ParsedUrl where
  scheme : String
  rest : String
deriving DecidableEq, Repr

/-- Modelled from the spec: the schemes the engine supports. -/
def supportedScheme (scheme : String) : Bool :=
  scheme = "http" || scheme = "https"

/-- Modelled from the spec: `submitScan(targetURL, authorized, mode)` (§6),
not in the frontend sources — rejects with an authorization error when
`authorized` is false and a validation error when the URL is malformed
(`none`) or its scheme unsupported; otherwise creates a queued ScanJob. -/
def submitScan (parsed : Option ParsedUrl) (authorized : Bool) (mode : String) :
    Except ValidationError ScanJob :=
  if !authorized then .error .authorizationRequired
  else
    match parsed with
    | none => .error .badUrl
    | some p =>
        if supportedScheme p.scheme then
          .ok { url := p.scheme ++ "://" ++ p.rest, mode := mode, state := .queued }
        else .error .badUrl

/-! ## Sample inputs -/

/-- A concrete HIGH-severity finding. -/
def sampleHighFinding : Vulnerability :=
  { category := "injection", severity := .HIGH, title := "SQL Injection",
    description := "response divergence under quote probe",
    remediation := "use parameterized queries", references := [] }

/-- A concrete dashboard stats payload without a backend health-score
object and with 5 critical risks. -/
def statsNoHealth5 : DashboardStats :=
  { total_scans := 3, active_targets := 2, critical_risks := 5,
    severity_distribution := { HIGH := 5, MEDIUM := 0, LOW := 0 },
    health_score := none }

/-- A concrete dashboard stats payload without a backend health-score
object and with 20 critical risks, driving the fallback score to 0. -/
def statsNoHealth20 : DashboardStats :=
  { total_scans := 8, active_targets := 4, critical_risks := 20,
    severity_distribution := { HIGH := 20, MEDIUM := 0, LOW := 0 },
    health_score := none }

/-! ## Helper lemmas -/

/-- The request `handleScan` posts carries exactly the selected mode. -/
theorem handleScan_request_eq (url : String) (isAuthorized : Bool)
    (scanMode : String) (r : ScanPostRequest)
    (h : (handleScan url isAuthorized scanMode).request = some r) :
    r.mode = scanMode ∧ r.url = normalizeTargetUrl url ∧ r.authorized = isAuthorized := by
  unfold handleScan at h
  split at h
  · simp at h
  · split at h
    · simp at h
    · simp only [Option.some.injEq] at h
      subst h
      exact ⟨rfl, by simp [normalizeTargetUrl], rfl⟩

/-- A fraction of the total, times 100, is at most 100. -/
theorem pct_le_100 (a t : ℚ) (ht : 0 < t) (h : a ≤ t) : a / t * 100 ≤ 100 := by
  rw [div_mul_eq_mul_div, div_le_iff₀ ht]
  nlinarith

/-! ## Claim theorems -/

/-- C1: whenever the authorization flag is false, `handleScan` sets an
error message and posts nothing to the scan API, and the spec-modelled
Orchestrator `submitScan` rejects the request with an authorization error,
creating no ScanJob. -/
theorem unauthorized_scan_rejected (url mode : String) (parsed : Option ParsedUrl) :
    (handleScan url false mode).request = none ∧
    (handleScan url false mode).error.isSome = true ∧
    submitScan parsed false mode = .error .authorizationRequired := by
  refine ⟨?_, ?_, ?_⟩
  · by_cases hu : url = "" <;> simp [handleScan, hu]
  · by_cases hu : url = "" <;> simp [handleScan, hu]
  · simp [submitScan]

/-- C2: the spec-modelled `summarize` follows strict severity precedence —
a positive HIGH count forces tier HIGH; with no HIGH, a positive MEDIUM
count forces MEDIUM; with neither, a positive LOW count forces LOW; with no
findings the tier is CLEAN without a snapshot failure and UNKNOWN with one;
and the tier is always one of the five values. -/
theorem risk_tier_precedence (failed : Bool) (fs : List Vulnerability) :
    ((summarize failed fs).by_severity.HIGH ≠ 0 →
      (summarize failed fs).risk_score = .HIGH) ∧
    ((summarize failed fs).by_severity.HIGH = 0 →
      (summarize failed fs).by_severity.MEDIUM ≠ 0 →
      (summarize failed fs).risk_score = .MEDIUM) ∧
    ((summarize failed fs).by_severity.HIGH = 0 →
      (summarize failed fs).by_severity.MEDIUM = 0 →
      (summarize failed fs).by_severity.LOW ≠ 0 →
      (summarize failed fs).risk_score = .LOW) ∧
    (fs = [] → failed = false → (summarize failed fs).risk_score = .CLEAN) ∧
    (fs = [] → failed = true → (summarize failed fs).risk_score = .UNKNOWN) ∧
    ((summarize failed fs).risk_score = .HIGH ∨
     (summarize failed fs).risk_score = .MEDIUM ∨
     (summarize failed fs).risk_score = .LOW ∨
     (summarize failed fs).risk_score = .CLEAN ∨
     (summarize failed fs).risk_score = .UNKNOWN) := by
  refine ⟨?_, ?_, ?_, ?_, ?_, ?_⟩
  · intro hH
    simp only [summarize] at hH ⊢
    simp [riskScoreOf, Nat.pos_of_ne_zero hH]
  · intro hH hM
    simp only [summarize] at hH hM ⊢
    simp [riskScoreOf, hH, Nat.pos_of_ne_zero hM]
  · intro hH hM hL
    simp only [summarize] at hH hM hL ⊢
    simp [riskScoreOf, hH, hM, Nat.pos_of_ne_zero hL]
  · rintro rfl rfl
    rfl
  · rintro rfl rfl
    rfl
  · cases h : (summarize failed fs).risk_score <;> simp

/-- C4: a scan with zero findings summarizes to risk tier CLEAN with every
severity count 0, and `ScanResultsPage` renders the Target Secure branch
instead of finding rows for it. -/
theorem clean_scan_zero_findings (fs : List Vulnerability) (h : fs = []) :
    (summarize false fs).risk_score = .CLEAN ∧
    (summarize false fs).by_severity = { HIGH := 0, MEDIUM := 0, LOW := 0 } ∧
    (summarize false fs).total_vulnerabilities = 0 ∧
    ScanResultsPage.findingsSection fs = .targetSecure := by
  subst h
  exact ⟨rfl, rfl, rfl, rfl⟩

/-- C5: the summary, health-score and percentage computations are pure
functions — identical inputs give identical outputs. -/
theorem aggregation_deterministic :
    (∀ (failed : Bool) (fs₁ fs₂ : List Vulnerability), fs₁ = fs₂ →
       summarize failed fs₁ = summarize failed fs₂) ∧
    (∀ p₁ p₂ : Nat, p₁ = p₂ →
       healthScoreFromPoints p₁ = healthScoreFromPoints p₂) ∧
    (∀ d₁ d₂ : SeverityCounts, d₁ = d₂ →
       DashboardPage.highPct d₁ = DashboardPage.highPct d₂ ∧
       DashboardPage.medPct d₁ = DashboardPage.medPct d₂) ∧
    (∀ s₁ s₂ : DashboardStats, s₁ = s₂ →
       DashboardPage.displayedHealthScore s₁ = DashboardPage.displayedHealthScore s₂ ∧
       DashboardPage.displayedLetterGrade s₁ = DashboardPage.displayedLetterGrade s₂) :=
  ⟨fun _ _ _ h => by rw [h],
   fun _ _ h => by rw [h],
   fun _ _ h => by rw [h]; exact ⟨rfl, rfl⟩,
   fun _ _ h => by rw [h]; exact ⟨rfl, rfl⟩⟩

/-- C6: from the initial state of `ScanInputPage`, every reachable UI state
has a scan mode among `discovery`, `standard`, `deep`, and any request
`handleScan` posts from such a state carries one of those three modes. -/
theorem scan_mode_invariant (s : ScanInputState) (h : ReachableScanInput s) :
    s.scanMode ∈ scanModes ∧
    ∀ r : ScanPostRequest,
      (handleScan s.url s.isAuthorized s.scanMode).request = some r →
      r.mode ∈ scanModes := by
  have hmode : s.scanMode ∈ scanModes := by
    induction h with
    | init => simp [initialScanInputState, scanModes]
    | @step t e _ ih =>
      unfold scanInputStep
      by_cases hscan : t.isScanning
      · simpa [hscan] using ih
      · cases e with
        | setUrl u => simpa [hscan] using ih
        | setAuthorized b => simpa [hscan] using ih
        | selectMode i => simp [hscan, List.get_mem]
  refine ⟨hmode, fun r hr => ?_⟩
  rw [(handleScan_request_eq _ _ _ _ hr).1]
  exact hmode

/-- C7: the spec-modelled `submitScan` rejects a malformed or
unsupported-scheme URL with a validation error, while the client does not
reject a URL missing the `http` prefix but normalizes it by prepending
`https://`, so every URL `handleScan` actually posts starts with `http`. -/
theorem scan_url_validation (url mode : String) (p : ParsedUrl) :
    jsStartsWith (normalizeTargetUrl url) "http" = true ∧
    (∀ r : ScanPostRequest, (handleScan url true mode).request = some r →
       jsStartsWith r.url "http" = true) ∧
    submitScan none true mode = .error .badUrl ∧
    (supportedScheme p.scheme = false →
       submitScan (some p) true mode = .error .badUrl) := by
  have hnorm : jsStartsWith (normalizeTargetUrl url) "http" = true := by
    unfold normalizeTargetUrl
    split
    · rename_i hs
      exact hs
    · simp [jsStartsWith]
  refine ⟨hnorm, fun r hr => ?_, by simp [submitScan], fun hbad => ?_⟩
  · rw [(handleScan_request_eq _ _ _ _ hr).2.1]
    exact hnorm
  · simp [submitScan, hbad]

/-- C8: the severity-distribution percentages are division-by-zero guarded
— with a zero total both percentages are 0; with a positive total they are
the exact HIGH and MEDIUM fractions times 100, each lies in [0, 100], and
their sum never exceeds 100. -/
theorem severity_pct_guard (d : SeverityCounts) :
    (DashboardPage.totalRisks d = 0 →
       DashboardPage.highPct d = 0 ∧ DashboardPage.medPct d = 0) ∧
    (DashboardPage.totalRisks d ≠ 0 →
       DashboardPage.highPct d =
         (d.HIGH : ℚ) / (DashboardPage.totalRisks d : ℚ) * 100 ∧
       DashboardPage.medPct d =
         (d.MEDIUM : ℚ) / (DashboardPage.totalRisks d : ℚ) * 100) ∧
    0 ≤ DashboardPage.highPct d ∧ DashboardPage.highPct d ≤ 100 ∧
    0 ≤ DashboardPage.medPct d ∧ DashboardPage.medPct d ≤ 100 ∧
    DashboardPage.highPct d + DashboardPage.medPct d ≤ 100 := by
  by_cases h : DashboardPage.totalRisks d = 0
  · refine ⟨fun _ => ⟨?_, ?_⟩, fun hc => absurd h hc, ?_, ?_, ?_, ?_, ?_⟩ <;>
      simp [DashboardPage.highPct, DashboardPage.medPct, h]
  · have htot : (0 : ℚ) < (DashboardPage.totalRisks d : ℚ) := by
      exact_mod_cast Nat.pos_of_ne_zero h
    have hH : (d.HIGH : ℚ) ≤ (DashboardPage.totalRisks d : ℚ) := by
      have : d.HIGH ≤ DashboardPage.totalRisks d := by
        simp only [DashboardPage.totalRisks]
        omega
      exact_mod_cast this
    have hM : (d.MEDIUM : ℚ) ≤ (DashboardPage.totalRisks d : ℚ) := by
      have : d.MEDIUM ≤ DashboardPage.totalRisks d := by
        simp only [DashboardPage.totalRisks]
        omega
      exact_mod_cast this
    have hHM : (d.HIGH : ℚ) + (d.MEDIUM : ℚ) ≤ (DashboardPage.totalRisks d : ℚ) := by
      have : d.HIGH + d.MEDIUM ≤ DashboardPage.totalRisks d := by
        simp only [DashboardPage.totalRisks]
        omega
      exact_mod_cast this
    have hhigh : DashboardPage.highPct d =
        (d.HIGH : ℚ) / (DashboardPage.totalRisks d : ℚ) * 100 := by
      simp [DashboardPage.highPct, h]
    have hmed : DashboardPage.medPct d =
        (d.MEDIUM : ℚ) / (DashboardPage.totalRisks d : ℚ) * 100 := by
      simp [DashboardPage.medPct, h]
    refine ⟨fun hc => absurd hc h, fun _ => ⟨hhigh, hmed⟩, ?_, ?_, ?_, ?_, ?_⟩
    · rw [hhigh]; positivity
    · rw [hhigh]; exact pct_le_100 _ _ htot hH
    · rw [hmed]; positivity
    · rw [hmed]; exact pct_le_100 _ _ htot hM
    · rw [hhigh, hmed, div_mul_eq_mul_div, div_mul_eq_mul_div, div_add_div_same]
      rw [← add_mul, div_le_iff₀ htot]
      nlinarith

/-- C9: the severity-to-style maps of `ScanResultsPage` and `DashboardPage`
are total and case-insensitive — the style depends only on the uppercased
severity string, every string whose uppercasing is none of HIGH, MEDIUM,
LOW gets the default style, and the result is always one of the four
styles. -/
theorem severity_color_total (s t : String) :
    (jsToUpperCase s = jsToUpperCase t →
       ScanResultsPage.getSeverityColor s = ScanResultsPage.getSeverityColor t ∧
       DashboardPage.getSeverityColor s = DashboardPage.getSeverityColor t) ∧
    (jsToUpperCase s ≠ "HIGH" → jsToUpperCase s ≠ "MEDIUM" →
       jsToUpperCase s ≠ "LOW" →
       ScanResultsPage.getSeverityColor s = "text-slate-600 bg-slate-50 border-slate-200" ∧
       DashboardPage.getSeverityColor s = "text-zinc-400 bg-zinc-500/10 border-zinc-500/20") ∧
    (ScanResultsPage.getSeverityColor s = "text-red-700 bg-red-50 border-red-100" ∨
     ScanResultsPage.getSeverityColor s = "text-yellow-700 bg-yellow-50 border-yellow-100" ∨
     ScanResultsPage.getSeverityColor s = "text-blue-700 bg-blue-50 border-blue-100" ∨
     ScanResultsPage.getSeverityColor s = "text-slate-600 bg-slate-50 border-slate-200") := by
  refine ⟨fun h => ?_, fun h1 h2 h3 => ?_, ?_⟩
  · constructor
    · unfold ScanResultsPage.getSeverityColor
      rw [h]
    · unfold DashboardPage.getSeverityColor
      rw [h]
  · constructor
    · simp [ScanResultsPage.getSeverityColor, h1, h2, h3]
    · simp [DashboardPage.getSeverityColor, h1, h2, h3]
  · unfold ScanResultsPage.getSeverityColor
    by_cases h1 : jsToUpperCase s = "HIGH" <;>
      by_cases h2 : jsToUpperCase s = "MEDIUM" <;>
        by_cases h3 : jsToUpperCase s = "LOW" <;>
          simp [h1, h2, h3]

/-- C10: when the stats payload carries no health-score object, the
dashboard falls back to the numeric score `max(0, 100 - critical_risks * 5)`
and displays the letter grade `A` unconditionally. -/
theorem fallback_health_display (stats : DashboardStats)
    (h : stats.health_score = none) :
    DashboardPage.displayedHealthScore stats =
      max 0 (100 - (stats.critical_risks : Int) * 5) ∧
    DashboardPage.displayedLetterGrade stats = "A" := by
  constructor
  · simp [DashboardPage.displayedHealthScore, jsOrNum, h]
  · simp [DashboardPage.displayedLetterGrade, jsOrStr, h]

/-- C3 counterexample: with no backend health-score object and 5 critical
risks the dashboard computes the numeric score 75, below the A threshold 90,
yet displays the letter grade A — the displayed grade is not the threshold
ladder of the displayed numeric score. -/
theorem grade_ladder_display_counterexample :
    statsNoHealth5.health_score = none ∧
    DashboardPage.displayedHealthScore statsNoHealth5 = 75 ∧
    (75 : Int) < 90 ∧
    DashboardPage.displayedLetterGrade statsNoHealth5 = "A" ∧
    letterGradeOf 75 = "B" := by
  refine ⟨rfl, by decide, by decide, rfl, by decide⟩

/-- C3 amended: the spec-modelled backend health score is
`max(0, 100 - riskPoints)`, lies in [0, 100], and its letter grade is the
threshold ladder over the numeric score, which yields A only at 90 and
above; the dashboard fallback score also lies in [0, 100], but when the
stats payload has no health-score object the displayed grade defaults to A
regardless of the numeric score. -/
theorem health_score_grade_amended (p : Nat) (stats : DashboardStats) :
    (healthScoreFromPoints p).health_score = max 0 (100 - (p : Int)) ∧
    0 ≤ (healthScoreFromPoints p).health_score ∧
    (healthScoreFromPoints p).health_score ≤ 100 ∧
    (healthScoreFromPoints p).letter_grade =
      letterGradeOf (healthScoreFromPoints p).health_score ∧
    (∀ sc : Int, letterGradeOf sc = "A" → 90 ≤ sc) ∧
    (stats.health_score = none →
       DashboardPage.displayedLetterGrade stats = "A" ∧
       0 ≤ DashboardPage.displayedHealthScore stats ∧
       DashboardPage.displayedHealthScore stats ≤ 100) := by
  refine ⟨rfl, le_max_left 0 _, ?_, rfl, ?_, ?_⟩
  · exact max_le (by norm_num) (by omega)
  · intro sc hA
    by_cases h1 : (90 : Int) ≤ sc
    · exact h1
    · exfalso
      unfold letterGradeOf at hA
      rw [if_neg h1] at hA
      split_ifs at hA <;> exact absurd hA (by decide)
  · intro h
    have hscore : DashboardPage.displayedHealthScore stats =
        max 0 (100 - (stats.critical_risks : Int) * 5) := by
      simp [DashboardPage.displayedHealthScore, jsOrNum, h]
    refine ⟨?_, ?_, ?_⟩
    · simp [DashboardPage.displayedLetterGrade, jsOrStr, h]
    · rw [hscore]
      exact le_max_left 0 _
    · rw [hscore]
      exact max_le (by norm_num) (by omega)

/-! ## Witnesses -/

/-- Witness for C2 at concrete inputs: a failed snapshot with no findings
is UNKNOWN, and one HIGH finding forces tier HIGH. -/
theorem risk_tier_precedence_witness :
    (summarize true []).risk_score = .UNKNOWN ∧
    (summarize false [sampleHighFinding]).risk_score = .HIGH :=
  ⟨(risk_tier_precedence true []).2.2.2.2.1 rfl rfl,
   (risk_tier_precedence false [sampleHighFinding]).1 (by decide)⟩

/-- Witness for C3 at concrete inputs: 40 risk points give score 60 with
the ladder grade, and the no-health-score payload displays grade A. -/
theorem health_score_grade_amended_witness :
    (healthScoreFromPoints 40).health_score = 60 ∧
    (healthScoreFromPoints 40).letter_grade = letterGradeOf 60 ∧
    statsNoHealth5.health_score = none ∧
    DashboardPage.displayedLetterGrade statsNoHealth5 = "A" := by
  have h := health_score_grade_amended 40 statsNoHealth5
  refine ⟨?_, ?_, rfl, (h.2.2.2.2.2 rfl).1⟩
  · rw [h.1]
    decide
  · rw [h.2.2.2.1, h.1]
    decide

/-- Witness for C4 at the empty finding list. -/
theorem clean_scan_zero_findings_witness :
    (summarize false []).risk_score = .CLEAN ∧
    ScanResultsPage.findingsSection [] = .targetSecure :=
  ⟨(clean_scan_zero_findings [] rfl).1, (clean_scan_zero_findings [] rfl).2.2.2⟩

/-- Witness for C5 at concrete equal inputs. -/
theorem aggregation_deterministic_witness :
    summarize false [sampleHighFinding] = summarize false [sampleHighFinding] ∧
    healthScoreFromPoints 25 = healthScoreFromPoints 25 :=
  ⟨aggregation_deterministic.1 false [sampleHighFinding] [sampleHighFinding] rfl,
   aggregation_deterministic.2.1 25 25 rfl⟩

/-- Witness for C6: the initial state and the state after clicking the
first mode card both carry a mode from the enumeration. -/
theorem scan_mode_invariant_witness :
    initialScanInputState.scanMode ∈ scanModes ∧
    (scanInputStep initialScanInputState (.selectMode 0)).scanMode ∈ scanModes :=
  ⟨(scan_mode_invariant initialScanInputState ReachableScanInput.init).1,
   (scan_mode_invariant (scanInputStep initialScanInputState (.selectMode 0))
      (ReachableScanInput.step (.selectMode 0) ReachableScanInput.init)).1⟩

/-- Witness for C7 at a bare domain and an unsupported scheme. -/
theorem scan_url_validation_witness :
    jsStartsWith (normalizeTargetUrl "example.com") "http" = true ∧
    supportedScheme "ftp" = false ∧
    submitScan (some ⟨"ftp", "example.com"⟩) true "standard" = .error .badUrl :=
  ⟨(scan_url_validation "example.com" "standard" ⟨"ftp", "example.com"⟩).1,
   by decide,
   (scan_url_validation "example.com" "standard" ⟨"ftp", "example.com"⟩).2.2.2
     (by decide)⟩

/-- Witness for C8 at the distribution HIGH 2, MEDIUM 1, LOW 1. -/
theorem severity_pct_guard_witness :
    DashboardPage.totalRisks ⟨2, 1, 1⟩ ≠ 0 ∧
    DashboardPage.highPct ⟨2, 1, 1⟩ = 50 := by
  refine ⟨by decide, ?_⟩
  have h := ((severity_pct_guard ⟨2, 1, 1⟩).2.1 (by decide)).1
  rw [h]
  norm_num [DashboardPage.totalRisks]

/-- Witness for C9: the lowercase and uppercase spellings of HIGH get the
same style in both pages. -/
theorem severity_color_total_witness :
    jsToUpperCase "high" = jsToUpperCase "HIGH" ∧
    ScanResultsPage.getSeverityColor "high" = ScanResultsPage.getSeverityColor "HIGH" ∧
    DashboardPage.getSeverityColor "high" = DashboardPage.getSeverityColor "HIGH" :=
  ⟨by decide,
   ((severity_color_total "high" "HIGH").1 (by decide)).1,
   ((severity_color_total "high" "HIGH").1 (by decide)).2⟩

/-- Witness for C10: 20 critical risks drive the fallback score to 0, which
is still displayed with grade A. -/
theorem fallback_health_display_witness :
    statsNoHealth20.health_score = none ∧
    DashboardPage.displayedHealthScore statsNoHealth20 = 0 ∧
    DashboardPage.displayedLetterGrade statsNoHealth20 = "A" := by
  have h := fallback_health_display statsNoHealth20 rfl
  refine ⟨rfl, ?_, h.2⟩
  rw [h.1]
  decide

end DefendX
